import Mathlib

/-! Chat-Agent: message submission, history reads and deletion, request
identifiers, health endpoints, logger levels and the preflight short-circuit.

A shallow embedding of the chat endpoints of the service
(`pkg/models/chat.go`, `pkg/handlers/chat.go`), of the chat repository
(`internal/database/database.go`), of the health endpoints
(`pkg/handlers/health.go`), of the middleware (`pkg/middleware/middleware.go`)
and of the logger constructors (`pkg/logger/logger.go`).

Conventions of the embedding:

* a Go `string` that was produced by the JSON decoder is valid UTF-8, so it
  is a Lean `String` (a sequence of Unicode scalar values);
  `utf8.RuneCountInString` is then `String.length`;
* `time.Time` is an instant on the integer time line (`Int`); a reading of
  the clock is a number of nanoseconds since 1970-01-01T00:00:00Z and is an
  argument of the function that takes it;
* Go `int` is `Int`;
* the logger is the list of entries written so far (newest last);
* the table `chat_messages` is the list of its rows; the statements built
  with gorm run against a reachable database, so the `Error` they report is
  `none` and the error branches of the repository are kept but not taken.
-/

namespace ChatAgent

/-! ## pkg/logger: the part the handlers use -/

/-- Severity of a log entry (`Logger.Info`, `Logger.Error`). -/
inductive Level where
  | debug
  | info
  | warn
  | error
  | fatal
deriving DecidableEq, Repr

/-- Field of a structured log entry, built by `logger.F(key, value)`; the value is kept
in its printed form. -/
structure Field where
  Key : String
  Value : String
deriving DecidableEq, Repr

/-- Constructor `logger.F`. -/
def F (key value : String) : Field := ⟨key, value⟩

/-- One entry written through the `Logger` interface. -/
structure LogEntry where
  level : Level
  msg : String
  fields : List Field
deriving DecidableEq, Repr

/-- Logger, seen as the entries it has written so far. -/
abbrev Logger := List LogEntry

/-- Method `Logger.Info`. -/
def Logger.Info (l : Logger) (msg : String) (fields : List Field) : Logger :=
  l ++ [⟨Level.info, msg, fields⟩]

/-- Method `Logger.Error`. -/
def Logger.Error (l : Logger) (msg : String) (fields : List Field) : Logger :=
  l ++ [⟨Level.error, msg, fields⟩]

/-! ## pkg/models/chat.go -/

/-- Row of the table `chat_messages` (`models.ChatMessage`); `ID` is the primary key. -/
structure ChatMessage where
  ID : String
  UserID : String
  Message : String
  Timestamp : String
  IsBot : Bool
  CreatedAt : Int
  UpdatedAt : Int
deriving DecidableEq, Repr

/-- Request structure for sending a message (`models.ChatMessageRequest`). -/
structure ChatMessageRequest where
  UserID : String
  Message : String
deriving DecidableEq, Repr

/-- Response structure after sending a message (`models.ChatMessageResponse`). -/
structure ChatMessageResponse where
  ID : String
  Message : String
  Timestamp : String
  Status : String
deriving DecidableEq, Repr

/-! ## The `binding` tags of `ChatMessageRequest`

`c.ShouldBindJSON(&req)` decodes the JSON body into the struct and then runs
the struct validator over the `binding` tags. The tags used by
`ChatMessageRequest` are `required`, `min=` and `max=`, all on string fields.
-/

/-- Validation tag of a `binding:"..."` struct tag. -/
inductive Tag where
  | required
  | min (n : Nat)
  | max (n : Nat)
deriving DecidableEq, Repr

/-- Name of a tag, as it appears in a validation error. -/
def Tag.name : Tag → String
  | .required => "required"
  | .min _ => "min"
  | .max _ => "max"

/-- Number of runes of a string (`utf8.RuneCountInString`). -/
def runeCount (s : String) : Nat := s.length

/-- Check of one tag on a string field: `required` asks for a value other than the zero
value `""`, `min=n` and `max=n` compare the number of runes with `n`. -/
def Tag.holds : Tag → String → Bool
  | .required, v => v != ""
  | .min n, v => decide (n ≤ runeCount v)
  | .max n, v => decide (runeCount v ≤ n)

/-- Failure of one field on one tag. -/
structure FieldError where
  ns : String
  field : String
  tag : String
deriving DecidableEq, Repr

/-- Text of one field failure. -/
def FieldError.Error (e : FieldError) : String :=
  "Key: '" ++ e.ns ++ "' Error:Field validation for '" ++ e.field ++
    "' failed on the '" ++ e.tag ++ "' tag"

/-- The tags of a field are checked from left to right; the first one that fails is the
failure reported for the field. -/
def validateField (struct field : String) (value : String) : List Tag → Option FieldError
  | [] => none
  | t :: ts =>
    if t.holds value then validateField struct field value ts
    else some ⟨struct ++ "." ++ field, field, t.name⟩

/-- Tags of `ChatMessageRequest.UserID`: `binding:"required"`. -/
def userIDTags : List Tag := [.required]

/-- Tags of `ChatMessageRequest.Message`: `binding:"required,min=1,max=1000"`. -/
def messageTags : List Tag := [.required, .min 1, .max 1000]

/-- Validation of a decoded `ChatMessageRequest`: every field is checked, in the order
of declaration, and the failures are collected. -/
def validateStruct (req : ChatMessageRequest) : List FieldError :=
  (validateField "ChatMessageRequest" "UserID" req.UserID userIDTags).toList ++
  (validateField "ChatMessageRequest" "Message" req.Message messageTags).toList

/-- Text of a list of failures: one line per failure. -/
def validationErrorsText (errs : List FieldError) : String :=
  "\n".intercalate (errs.map FieldError.Error)

/-- Body of a POST request as the JSON decoder sees it: either it cannot be decoded into
a `ChatMessageRequest` (malformed JSON, wrong field type, empty body), or it decodes to
the struct, a key that is absent leaving the zero value `""`. -/
inductive Payload where
  | undecodable (err : String)
  | decoded (req : ChatMessageRequest)
deriving DecidableEq, Repr

/-- Binding `c.ShouldBindJSON(&req)`: decode, then validate. -/
def ShouldBindJSON : Payload → Except String ChatMessageRequest
  | .undecodable err => .error err
  | .decoded req =>
    match validateStruct req with
    | [] => .ok req
    | e :: es => .error (validationErrorsText (e :: es))

/-! ## pkg/handlers/chat.go -/

/-- JSON document written by a chat handler. -/
inductive JSONBody where
  | errorBody (error message : String)
  | sent (response : ChatMessageResponse)
deriving DecidableEq, Repr

/-- What `c.JSON(status, body)` writes. -/
structure HTTPResponse where
  status : Nat
  body : JSONBody
deriving DecidableEq, Repr

/-- Status `http.StatusOK`. -/
def StatusOK : Nat := 200

/-- Status `http.StatusBadRequest`. -/
def StatusBadRequest : Nat := 400

/-- Handler of the chat endpoints; it holds a logger and nothing else. -/
structure ChatHandler where
  logger : Logger
deriving DecidableEq, Repr

/-- Helper `generateID`. -/
def generateID : String := "12345"

/-- Helper `getCurrentTimestamp`. -/
def getCurrentTimestamp : String := "2024-01-01T12:00:00Z"

/-- Handler `ChatHandler.SendMessage`: the response written and the handler afterwards. -/
def ChatHandler.SendMessage (h : ChatHandler) (p : Payload) : HTTPResponse × ChatHandler :=
  match ShouldBindJSON p with
  | .error err =>
    (⟨StatusBadRequest, .errorBody "Invalid request body" err⟩,
     { logger := h.logger.Error "Invalid request body" [F "error" err] })
  | .ok req =>
    let response : ChatMessageResponse :=
      { ID := "msg_" ++ generateID
        Message := "This is a response to: " ++ req.Message
        Timestamp := getCurrentTimestamp
        Status := "sent" }
    (⟨StatusOK, .sent response⟩,
     { logger := h.logger.Info "Message sent"
         [F "message_id" response.ID, F "user_message" req.Message] })

/-- The success response of an HTTP response, when it is one. -/
def HTTPResponse.success (r : HTTPResponse) : Option ChatMessageResponse :=
  match r.body with
  | .sent response => if r.status = StatusOK then some response else none
  | .errorBody _ _ => none

/-! ## internal/database/database.go: the chat repository

A gorm statement is built by chaining clauses on the handle and is run by a
finisher (`Find`, `Delete`). The clauses used by the chat repository are
`Where("user_id = ?", _)`, `Where("id = ?", _)`, `Order("created_at DESC")`
and `Limit(_)`.
-/

/-- Statement under construction on the table `chat_messages`. -/
structure Query where
  whereUserID : Option String
  whereID : Option String
  orderCreatedAtDesc : Bool
  limit : Option Int
deriving DecidableEq, Repr

/-- Statement with no clause yet (the handle `r.db`). -/
def Query.new : Query := ⟨none, none, false, none⟩

/-- Clause `Where("user_id = ?", userID)`. -/
def Query.WhereUserID (q : Query) (userID : String) : Query := { q with whereUserID := some userID }

/-- Clause `Where("id = ?", id)`. -/
def Query.WhereID (q : Query) (id : String) : Query := { q with whereID := some id }

/-- Clause `Order("created_at DESC")`. -/
def Query.OrderCreatedAtDesc (q : Query) : Query := { q with orderCreatedAtDesc := true }

/-- Clause `Limit(limit)`. -/
def Query.Limit (q : Query) (limit : Int) : Query := { q with limit := some limit }

/-- Row test of the `WHERE` conditions of a statement. -/
def Query.selects (q : Query) (m : ChatMessage) : Bool :=
  (match q.whereUserID with
   | some u => m.UserID == u
   | none => true) &&
  (match q.whereID with
   | some i => m.ID == i
   | none => true)

/-- Order `created_at DESC`: `a` may stand before `b` when it is at least as recent. -/
def createdAtDesc (a b : ChatMessage) : Prop := b.CreatedAt ≤ a.CreatedAt

instance : DecidableRel createdAtDesc := fun a b => inferInstanceAs (Decidable (b.CreatedAt ≤ a.CreatedAt))

instance : IsTotal ChatMessage createdAtDesc := ⟨fun a b => Int.le_total b.CreatedAt a.CreatedAt⟩

instance : IsTrans ChatMessage createdAtDesc :=
  ⟨fun _ b c hab hbc => Int.le_trans (show c.CreatedAt ≤ b.CreatedAt from hbc) hab⟩

/-- Finisher `Find(&messages)`: the selected rows, ordered and cut as the clauses say,
and the `Error` of the statement. Rows with the same `created_at` keep their table
order. -/
def Query.Find (q : Query) (table : List ChatMessage) : List ChatMessage × Option String :=
  let selected := table.filter q.selects
  let ordered := if q.orderCreatedAtDesc then selected.insertionSort createdAtDesc else selected
  let cut :=
    match q.limit with
    | some n => ordered.take n.toNat
    | none => ordered
  (cut, none)

/-- Finisher `Delete(&models.ChatMessage{})`: `ChatMessage` has no `gorm.DeletedAt`
field, so the statement is `DELETE FROM chat_messages WHERE ...`; the result is the
table afterwards and the `Error` of the statement (deleting no row is no error). -/
def Query.Delete (q : Query) (table : List ChatMessage) : List ChatMessage × Option String :=
  (table.filter (fun m => !q.selects m), none)

/-- Repository of the chat messages: the table behind its gorm handle, and its logger. -/
structure ChatRepository where
  db : List ChatMessage
  logger : Logger
deriving DecidableEq, Repr

/-- Method `ChatRepository.GetMessagesByUserID`: the messages and error returned, and the
repository afterwards. -/
def ChatRepository.GetMessagesByUserID (r : ChatRepository) (userID : String) (limit : Int) :
    (List ChatMessage × Option String) × ChatRepository :=
  let query := (Query.new.WhereUserID userID).OrderCreatedAtDesc
  let query := if limit > 0 then query.Limit limit else query
  match query.Find r.db with
  | (_, some err) =>
    (([], some err), { r with logger := r.logger.Error "Failed to get messages" [F "error" err] })
  | (messages, none) => ((messages, none), r)

/-- Method `ChatRepository.DeleteMessage`: the error returned and the repository
afterwards. -/
def ChatRepository.DeleteMessage (r : ChatRepository) (messageID : String) :
    Option String × ChatRepository :=
  match (Query.new.WhereID messageID).Delete r.db with
  | (table, some err) =>
    (some err, { db := table, logger := r.logger.Error "Failed to delete message" [F "error" err] })
  | (table, none) =>
    (none, { db := table, logger := r.logger.Info "Message deleted" [F "message_id" messageID] })

/-! ## cmd/server/main.go: the wiring of the chat route -/

/-- Running service: the database it is connected to and the log it writes; the chat
handler is built from the logger alone (`handlers.NewChatHandler(log)`). -/
structure Server where
  db : List ChatMessage
  log : Logger
deriving DecidableEq, Repr

/-- Constructor `NewChatHandler`. -/
def NewChatHandler (logger : Logger) : ChatHandler := { logger := logger }

/-- Route `POST /api/v1/chat/message`, bound to `chatHandler.SendMessage`. -/
def Server.postMessage (s : Server) (p : Payload) : HTTPResponse × Server :=
  let out := (NewChatHandler s.log).SendMessage p
  (out.1, { s with log := out.2.logger })

end ChatAgent

/-! ## The clock and the layout `20060102150405`

`time.Now()` is read as the number of nanoseconds since 1970-01-01T00:00:00Z,
together with the offset of the local zone in seconds east of UTC.
`Format("20060102150405")` prints the year, the month, the day, the hour,
the minute and the second of the local civil time, each padded with zeros.
-/

namespace ChatAgent

/-- Decimal digits of `n`, padded with zeros on the left to at least `width` digits. -/
def zeroPad (width n : Nat) : String :=
  let ds := Nat.toDigits 10 n
  String.mk (List.replicate (width - ds.length) '0' ++ ds)

/-- Year, month and day of the day that lies `days` days after 1970-01-01, in the
proleptic Gregorian calendar. -/
def civilFromDays (days : Int) : Int × Int × Int :=
  let z := days + 719468
  let era := z / 146097
  let doe := z - era * 146097
  let yoe := (doe - doe / 1460 + doe / 36524 - doe / 146096) / 365
  let doy := doe - (365 * yoe + yoe / 4 - yoe / 100)
  let mp := (5 * doy + 2) / 153
  let d := doy - (153 * mp + 2) / 5 + 1
  let m := if mp < 10 then mp + 3 else mp - 9
  let y := yoe + era * 400
  (if m ≤ 2 then y + 1 else y, m, d)

/-- Year printed by the layout element `2006`: four digits at least, with a sign when
it is negative. -/
def formatYear (y : Int) : String :=
  if y < 0 then "-" ++ zeroPad 4 (-y).toNat else zeroPad 4 y.toNat

/-- Layout `20060102150405` applied to the instant `unixNano` in the zone `offset`. -/
def formatCompact (offset unixNano : Int) : String :=
  let secs := unixNano / 1000000000 + offset
  let days := secs / 86400
  let rem := secs % 86400
  let date := civilFromDays days
  formatYear date.1 ++ zeroPad 2 date.2.1.toNat ++ zeroPad 2 date.2.2.toNat ++
    zeroPad 2 (rem / 3600).toNat ++ zeroPad 2 (rem % 3600 / 60).toNat ++
    zeroPad 2 (rem % 60).toNat

end ChatAgent

/-! ## The gin context, as far as the middleware uses it -/

namespace ChatAgent

/-- Request context `*gin.Context`: the method of the request, the headers of the
response and the keys set so far, the status code of the response writer and whether it
has been written, and the index of the handler that is running. The name of a header is
kept as the handler wrote it. -/
structure Context where
  Method : String
  Header : List (String × String)
  Keys : List (String × String)
  Status : Nat
  written : Bool
  index : Int
deriving DecidableEq, Repr

/-- Index that marks a context as aborted (`abortIndex`, `math.MaxInt8 >> 1`). -/
def abortIndex : Int := 63

/-- Status `http.StatusNoContent`. -/
def StatusNoContent : Nat := 204

/-- Entry `key: value` put into a map kept as a list: an older entry of the key is
replaced. -/
def setEntry (entries : List (String × String)) (key value : String) : List (String × String) :=
  entries.filter (fun e => e.1 != key) ++ [(key, value)]

/-- Value of a key in a map kept as a list. -/
def getEntry (entries : List (String × String)) (key : String) : Option String :=
  (entries.find? (fun e => e.1 == key)).map Prod.snd

/-- Method `c.Header(key, value)`: sets the response header, or removes it when the value
is empty. -/
def Context.SetHeader (c : Context) (key value : String) : Context :=
  if value == "" then { c with Header := c.Header.filter (fun e => e.1 != key) }
  else { c with Header := setEntry c.Header key value }

/-- Method `c.Set(key, value)`. -/
def Context.Set (c : Context) (key value : String) : Context :=
  { c with Keys := setEntry c.Keys key value }

/-- Method `c.Status(code)`: the writer takes the code unless the header is already
written. -/
def Context.SetStatus (c : Context) (code : Nat) : Context :=
  if code > 0 ∧ c.Status ≠ code then
    (if c.written then c else { c with Status := code })
  else c

/-- Method `c.Writer.WriteHeaderNow()`. -/
def Context.WriteHeaderNow (c : Context) : Context := { c with written := true }

/-- Method `c.Abort()`: the handlers that have not run yet will not be called. -/
def Context.Abort (c : Context) : Context := { c with index := abortIndex }

/-- Method `c.IsAborted()`. -/
def Context.IsAborted (c : Context) : Bool := decide (c.index ≥ abortIndex)

/-- Method `c.AbortWithStatus(code)`. -/
def Context.AbortWithStatus (c : Context) (code : Nat) : Context :=
  ((c.SetStatus code).WriteHeaderNow).Abort

/-- Handler `gin.HandlerFunc`; its first argument is what `c.Next()` does when the
handler calls it. -/
abbrev HandlerFunc := (Context → Context) → Context → Context

/-- Loop of `c.Next()`, `for c.index < len(c.handlers) { c.handlers[c.index](c);
c.index++ }`, over the handlers from position `pos` on. The index never decreases, so
the handler at a position runs when the index stands at that position as the loop
reaches it. Called inside the handler at position `pos`, `c.Next()` adds one to the
index and runs the loop over the handlers after it. -/
def Context.runHandlers : List HandlerFunc → Int → Context → Context
  | [], _, c => c
  | h :: rest, pos, c =>
    if c.index = pos then
      let c1 := h (fun c2 => runHandlers rest (pos + 1) { c2 with index := c2.index + 1 }) c
      runHandlers rest (pos + 1) { c1 with index := c1.index + 1 }
    else runHandlers rest (pos + 1) c

/-- Dispatch of a request through its handler chain: the index starts at -1 and
`c.Next()` is called. -/
def Context.serve (handlers : List HandlerFunc) (c : Context) : Context :=
  Context.runHandlers handlers 0 { c with index := 0 }

end ChatAgent

/-! ## pkg/middleware/middleware.go -/

namespace ChatAgent

/-- Middleware `CORSMiddleware`. -/
def CORSMiddleware : HandlerFunc := fun next c =>
  let c := c.SetHeader "Access-Control-Allow-Origin" "*"
  let c := c.SetHeader "Access-Control-Allow-Credentials" "true"
  let c := c.SetHeader "Access-Control-Allow-Headers"
    "Content-Type, Content-Length, Accept-Encoding, X-CSRF-Token, Authorization, accept, origin, Cache-Control, X-Requested-With"
  let c := c.SetHeader "Access-Control-Allow-Methods" "POST, OPTIONS, GET, PUT, DELETE"
  if c.Method == "OPTIONS" then c.AbortWithStatus StatusNoContent
  else next c

/-- Helper `generateRequestID`, with the reading of the clock it takes. -/
def generateRequestID (offset now : Int) : String :=
  "req_" ++ formatCompact offset now

/-- Middleware `RequestIDMiddleware`, with the reading of the clock it takes. -/
def RequestIDMiddleware (offset now : Int) : HandlerFunc := fun next c =>
  let requestID := generateRequestID offset now
  let c := c.SetHeader "X-Request-ID" requestID
  let c := c.Set "RequestID" requestID
  next c

end ChatAgent

/-! ## pkg/handlers/health.go -/

namespace ChatAgent

/-- Loop of `fmtFrac`: the last `prec` decimal digits of `v` are put in front of `acc`,
trailing zeros left out, then the decimal point when a digit was printed; the second
component is `v` without those digits. -/
def fmtFrac : Nat → Nat → Bool → List Char → List Char × Nat
  | 0, v, printed, acc => (if printed then '.' :: acc else acc, v)
  | prec + 1, v, printed, acc =>
    let digit := v % 10
    let printed := printed || digit != 0
    fmtFrac prec (v / 10) printed (if printed then Nat.digitChar digit :: acc else acc)

/-- Helper `fmtInt`: the decimal digits of `v` are put in front of `acc`. -/
def fmtInt (v : Nat) (acc : List Char) : List Char := Nat.toDigits 10 v ++ acc

/-- Text of a duration given in nanoseconds (`time.Duration.String`), such as `1h2m3.5s`,
`1.5ms` or `0s`. -/
def durationString (d : Int) : String :=
  let u := d.natAbs
  let text : List Char :=
    if u < 1000000000 then
      if u = 0 then ['0', 's']
      else if u < 1000 then
        let r := fmtFrac 0 u false ['n', 's']
        fmtInt r.2 r.1
      else if u < 1000000 then
        let r := fmtFrac 3 u false ['µ', 's']
        fmtInt r.2 r.1
      else
        let r := fmtFrac 6 u false ['m', 's']
        fmtInt r.2 r.1
    else
      let r := fmtFrac 9 u false ['s']
      let acc := fmtInt (r.2 % 60) r.1
      let mins := r.2 / 60
      if mins > 0 then
        let acc := fmtInt (mins % 60) ('m' :: acc)
        let hours := mins / 60
        if hours > 0 then fmtInt hours ('h' :: acc) else acc
      else acc
  String.mk (if d < 0 then '-' :: text else text)

/-- Handler of the health endpoints; it holds the time the service started. -/
structure HealthHandler where
  startTime : Int
deriving DecidableEq, Repr

/-- Constructor `NewHealthHandler`, with the reading of the clock it takes. -/
def NewHealthHandler (now : Int) : HealthHandler := { startTime := now }

/-- Health check response (`HealthResponse`). -/
structure HealthResponse where
  Status : String
  Timestamp : Int
  Uptime : String
  Service : String
  Version : String
  Checks : List (String × String)
deriving DecidableEq, Repr

/-- Document `gin.H{"status": ..., "timestamp": ...}` of the readiness and liveness
endpoints. -/
structure StatusDocument where
  status : String
  timestamp : Int
deriving DecidableEq, Repr

/-- What `c.JSON(code, obj)` writes for a document of type `β`. -/
structure JSONReply (β : Type) where
  code : Nat
  obj : β
deriving DecidableEq, Repr

/-- Handler `HealthHandler.Health`; `sinceNow` is the clock as `time.Since` reads it and
`now` the clock as `time.Now` reads it for the timestamp. -/
def HealthHandler.Health (h : HealthHandler) (_c : Context) (sinceNow now : Int) :
    JSONReply HealthResponse :=
  let uptime := sinceNow - h.startTime
  let response : HealthResponse :=
    { Status := "healthy"
      Timestamp := now
      Uptime := durationString uptime
      Service := "chat-agent"
      Version := "1.0.0"
      Checks := [("database", "healthy"), ("api", "healthy")] }
  ⟨StatusOK, response⟩

/-- Handler `HealthHandler.Ready`. -/
def HealthHandler.Ready (_h : HealthHandler) (_c : Context) (now : Int) :
    JSONReply StatusDocument :=
  ⟨StatusOK, { status := "ready", timestamp := now }⟩

/-- Handler `HealthHandler.Live`. -/
def HealthHandler.Live (_h : HealthHandler) (_c : Context) (now : Int) :
    JSONReply StatusDocument :=
  ⟨StatusOK, { status := "alive", timestamp := now }⟩

end ChatAgent

/-! ## pkg/logger/logger.go: the two constructors -/

namespace ChatAgent

/-- Levels of zap that `NewZapLogger` can select. -/
inductive ZapLevel where
  | DebugLevel
  | InfoLevel
  | WarnLevel
  | ErrorLevel
deriving DecidableEq, Repr

/-- Levels of logrus that `NewLogrusLogger` can select. -/
inductive LogrusLevel where
  | ErrorLevel
  | WarnLevel
  | InfoLevel
  | DebugLevel
deriving DecidableEq, Repr

/-- Severity that a level of zap stands for. -/
def ZapLevel.severity : ZapLevel → Level
  | .DebugLevel => .debug
  | .InfoLevel => .info
  | .WarnLevel => .warn
  | .ErrorLevel => .error

/-- Severity that a level of logrus stands for. -/
def LogrusLevel.severity : LogrusLevel → Level
  | .DebugLevel => .debug
  | .InfoLevel => .info
  | .WarnLevel => .warn
  | .ErrorLevel => .error

/-- The fields of `zap.Config` that the presets and `Build` use. -/
structure ZapConfig where
  Level : ZapLevel
  Development : Bool
  Encoding : String
  OutputPaths : List String
deriving DecidableEq, Repr

/-- Preset `zap.NewProductionConfig()`. -/
def NewProductionConfig : ZapConfig :=
  { Level := .InfoLevel, Development := false, Encoding := "json", OutputPaths := ["stderr"] }

/-- Preset `zap.NewDevelopmentConfig()`. -/
def NewDevelopmentConfig : ZapConfig :=
  { Level := .DebugLevel, Development := true, Encoding := "console", OutputPaths := ["stderr"] }

/-- Method `config.Build()`: it fails when no encoder is registered under the name of the
encoding; the logger it builds keeps the configuration. -/
def ZapConfig.Build (config : ZapConfig) : Except String ZapConfig :=
  if config.Encoding == "json" || config.Encoding == "console" then .ok config
  else .error ("no encoder registered for name \"" ++ config.Encoding ++ "\"")

/-- Wrapper `ZapLogger`. -/
structure ZapLogger where
  logger : ZapConfig
deriving DecidableEq, Repr

/-- Formatter of a logrus logger. -/
inductive LogrusFormatter where
  | JSONFormatter
  | TextFormatter (DisableColors FullTimestamp : Bool)
deriving DecidableEq, Repr

/-- The fields of `logrus.Logger` that the constructor sets. -/
structure LogrusCore where
  Level : LogrusLevel
  Formatter : LogrusFormatter
  Out : String
deriving DecidableEq, Repr

/-- Constructor `logrus.New()`: level info, text formatter, output to stderr. -/
def LogrusNew : LogrusCore :=
  { Level := .InfoLevel, Formatter := .TextFormatter false false, Out := "stderr" }

/-- Wrapper `LogrusLogger`. -/
structure LogrusLogger where
  logger : LogrusCore
deriving DecidableEq, Repr

/-- Constructor `NewZapLogger`. -/
def NewZapLogger (level format : String) : Except String ZapLogger :=
  let config := if format == "json" then NewProductionConfig else NewDevelopmentConfig
  let config : ZapConfig :=
    if level = "debug" then { config with Level := .DebugLevel }
    else if level = "info" then { config with Level := .InfoLevel }
    else if level = "warn" then { config with Level := .WarnLevel }
    else if level = "error" then { config with Level := .ErrorLevel }
    else { config with Level := .InfoLevel }
  match config.Build with
  | .error err => .error err
  | .ok logger => .ok { logger := logger }

/-- Constructor `NewLogrusLogger`. -/
def NewLogrusLogger (level format : String) : LogrusLogger :=
  let logger := LogrusNew
  let logger : LogrusCore :=
    if level = "debug" then { logger with Level := .DebugLevel }
    else if level = "info" then { logger with Level := .InfoLevel }
    else if level = "warn" then { logger with Level := .WarnLevel }
    else if level = "error" then { logger with Level := .ErrorLevel }
    else { logger with Level := .InfoLevel }
  let logger : LogrusCore :=
    if format == "json" then { logger with Formatter := .JSONFormatter }
    else { logger with Formatter := .TextFormatter false true }
  let logger := { logger with Out := "stdout" }
  { logger := logger }

end ChatAgent

/-! ## Sample data -/

namespace ChatAgent

/-- Message `m1` of user `u1`, the older of the two sample messages. -/
def sampleOlder : ChatMessage := ⟨"m1", "u1", "hello", "2024-01-01T12:00:00Z", false, 1, 1⟩

/-- Message `m2` of user `u1`, the newer of the two sample messages. -/
def sampleNewer : ChatMessage := ⟨"m2", "u1", "again", "2024-01-01T12:00:01Z", false, 2, 2⟩

/-- Repository that stores `m1` and `m2` and has logged nothing. -/
def sampleRepository : ChatRepository := ⟨[sampleOlder, sampleNewer], []⟩

/-- Context of a `GET` request as the handler chain receives it: nothing set, status 200,
nothing written. -/
def sampleGet : Context := ⟨"GET", [], [], 200, false, 0⟩

/-- Context of an `OPTIONS` request as the handler chain receives it. -/
def sampleOptions : Context := ⟨"OPTIONS", [], [], 200, false, 0⟩

/-- Final handler that answers 200 and calls nothing. -/
def sampleFinal : HandlerFunc := fun _ c => c.SetStatus StatusOK

/-- Table of `k` messages of user `u1`, with the identifiers `m0`, `m1`, ... in the order
of their creation. -/
def manyMessages (k : Nat) : List ChatMessage :=
  (List.range k).map fun (i : Nat) =>
    ⟨"m" ++ toString i, "u1", "hi", "2024-01-01T12:00:00Z", false, (i : Int), (i : Int)⟩

end ChatAgent

/-! ## Lemmas on the binding of `ChatMessageRequest` -/

namespace ChatAgent

theorem ne_empty_iff_length_pos (s : String) : s ≠ "" ↔ 0 < s.length := by
  rcases s with ⟨l⟩
  cases l with
  | nil => simp [String.length]
  | cons c cs =>
    constructor
    · intro _
      simp [String.length]
    · intro _ hEq
      have := congrArg String.length hEq
      simp [String.length] at this

theorem validateStruct_eq_nil_iff (req : ChatMessageRequest) :
    validateStruct req = [] ↔
      req.UserID ≠ "" ∧ 1 ≤ runeCount req.Message ∧ runeCount req.Message ≤ 1000 := by
  by_cases hu : req.UserID = "" <;> by_cases hm0 : req.Message = "" <;>
    by_cases h1 : 1 ≤ req.Message.length <;> by_cases h2 : req.Message.length ≤ 1000 <;>
    simp [validateStruct, validateField, userIDTags, messageTags, Tag.holds, runeCount,
      hu, hm0, h1, h2]

theorem SendMessage_of_valid (h : ChatHandler) (req : ChatMessageRequest)
    (hv : validateStruct req = []) :
    (h.SendMessage (.decoded req)).1 =
      ⟨StatusOK, .sent ⟨"msg_" ++ generateID, "This is a response to: " ++ req.Message,
        getCurrentTimestamp, "sent"⟩⟩ := by
  simp [ChatHandler.SendMessage, ShouldBindJSON, hv]

theorem SendMessage_of_invalid (h : ChatHandler) (req : ChatMessageRequest)
    (hv : validateStruct req ≠ []) :
    (h.SendMessage (.decoded req)).1 =
      ⟨StatusBadRequest, .errorBody "Invalid request body"
        (validationErrorsText (validateStruct req))⟩ := by
  cases hvs : validateStruct req with
  | nil => exact absurd hvs hv
  | cons e es => simp [ChatHandler.SendMessage, ShouldBindJSON, hvs]

end ChatAgent

/-! ## The message submission endpoint -/

namespace ChatAgent

theorem utf8ByteSize_replicate (c : Char) (n : Nat) :
    (String.mk (List.replicate n c)).utf8ByteSize = n * c.utf8Size := by
  have hgo : ∀ k, String.utf8ByteSize.go (List.replicate k c) = k * c.utf8Size := by
    intro k
    induction k with
    | zero => rw [Nat.zero_mul]; rfl
    | succ k ih =>
      show String.utf8ByteSize.go (List.replicate k c) + c.utf8Size = (k + 1) * c.utf8Size
      rw [ih, Nat.succ_mul]
  exact hgo n

theorem runeCount_replicate (c : Char) (n : Nat) :
    runeCount (String.mk (List.replicate n c)) = n := by
  simp [runeCount, String.length]

/-- C1: with a non-empty `user_id`, `SendMessage` answers 400 with no success response
when the body has more than 1000 code points and answers 200 when it has between 1 and
1000; the count is in code points, so 1000 copies of any character are accepted (for
`'é'` that is a body of 2000 bytes) and 1001 copies are rejected. -/
theorem SendMessage_body_length (h : ChatHandler) :
    (∀ req : ChatMessageRequest, req.UserID ≠ "" →
      (1000 < runeCount req.Message →
        (h.SendMessage (.decoded req)).1.status = StatusBadRequest ∧
        (h.SendMessage (.decoded req)).1.success = none) ∧
      (1 ≤ runeCount req.Message → runeCount req.Message ≤ 1000 →
        (h.SendMessage (.decoded req)).1.status = StatusOK ∧
        (h.SendMessage (.decoded req)).1.success.isSome = true)) ∧
    (∀ (u : String) (c : Char), u ≠ "" →
      (h.SendMessage (.decoded ⟨u, String.mk (List.replicate 1000 c)⟩)).1.status = StatusOK ∧
      (h.SendMessage (.decoded ⟨u, String.mk (List.replicate 1001 c)⟩)).1.status
        = StatusBadRequest) ∧
    (String.mk (List.replicate 1000 'é')).utf8ByteSize = 2000 := by
  have main : ∀ req : ChatMessageRequest, req.UserID ≠ "" →
      (1000 < runeCount req.Message →
        (h.SendMessage (.decoded req)).1.status = StatusBadRequest ∧
        (h.SendMessage (.decoded req)).1.success = none) ∧
      (1 ≤ runeCount req.Message → runeCount req.Message ≤ 1000 →
        (h.SendMessage (.decoded req)).1.status = StatusOK ∧
        (h.SendMessage (.decoded req)).1.success.isSome = true) := by
    intro req hu
    constructor
    · intro hlong
      have hv : validateStruct req ≠ [] := by
        intro hnil
        have := (validateStruct_eq_nil_iff req).1 hnil
        omega
      rw [SendMessage_of_invalid h req hv]
      simp [HTTPResponse.success]
    · intro h1 h2
      have hv : validateStruct req = [] := (validateStruct_eq_nil_iff req).2 ⟨hu, h1, h2⟩
      rw [SendMessage_of_valid h req hv]
      simp [HTTPResponse.success]
  refine ⟨main, ?_, ?_⟩
  · intro u c hu
    constructor
    · exact ((main ⟨u, String.mk (List.replicate 1000 c)⟩ hu).2
        (by rw [runeCount_replicate]; decide) (by rw [runeCount_replicate])).1
    · exact ((main ⟨u, String.mk (List.replicate 1001 c)⟩ hu).1
        (by rw [runeCount_replicate]; decide)).1
  · rw [utf8ByteSize_replicate]
    decide

theorem SendMessage_body_length_witness :
    ("u1" : String) ≠ "" ∧
      ((NewChatHandler []).SendMessage (.decoded ⟨"u1", "hi"⟩)).1.status = StatusOK :=
  ⟨by decide,
   (((SendMessage_body_length (NewChatHandler [])).1 ⟨"u1", "hi"⟩ (by decide)).2
      (by decide) (by decide)).1⟩

/-- C2, as the claim states it, fails: the body `" "` is made of whitespace only, and
with `user_id` `"u1"` it is answered 200 with a success response. -/
theorem SendMessage_whitespace_body_accepted :
    (" ".data.all Char.isWhitespace = true) ∧
    ((NewChatHandler []).SendMessage (.decoded ⟨"u1", " "⟩)).1.status = StatusOK ∧
    ((NewChatHandler []).SendMessage (.decoded ⟨"u1", " "⟩)).1.success.isSome = true := by
  decide

/-- C2, amended: a submission whose body is the empty string is answered 400 with no
success response, whatever the `user_id`. No trimming is applied to the body. -/
theorem SendMessage_empty_body (h : ChatHandler) (req : ChatMessageRequest)
    (hm : req.Message = "") :
    (h.SendMessage (.decoded req)).1.status = StatusBadRequest ∧
    (h.SendMessage (.decoded req)).1.success = none := by
  have hv : validateStruct req ≠ [] := by
    intro hnil
    have := (validateStruct_eq_nil_iff req).1 hnil
    simp [hm, runeCount] at this
  rw [SendMessage_of_invalid h req hv]
  simp [HTTPResponse.success]

theorem SendMessage_empty_body_witness :
    ((NewChatHandler []).SendMessage (.decoded ⟨"u1", ""⟩)).1.status = StatusBadRequest ∧
    ((NewChatHandler []).SendMessage (.decoded ⟨"u1", ""⟩)).1.success = none :=
  SendMessage_empty_body (NewChatHandler []) ⟨"u1", ""⟩ rfl

/-- C3: a submission whose `user_id` is empty is answered 400 with no success response,
whatever the body. -/
theorem SendMessage_empty_user_id (h : ChatHandler) (req : ChatMessageRequest)
    (hu : req.UserID = "") :
    (h.SendMessage (.decoded req)).1.status = StatusBadRequest ∧
    (h.SendMessage (.decoded req)).1.success = none := by
  have hv : validateStruct req ≠ [] := by
    intro hnil
    exact ((validateStruct_eq_nil_iff req).1 hnil).1 hu
  rw [SendMessage_of_invalid h req hv]
  simp [HTTPResponse.success]

theorem SendMessage_empty_user_id_witness :
    ((NewChatHandler []).SendMessage (.decoded ⟨"", "hello"⟩)).1.status = StatusBadRequest ∧
    ((NewChatHandler []).SendMessage (.decoded ⟨"", "hello"⟩)).1.success = none :=
  SendMessage_empty_user_id (NewChatHandler []) ⟨"", "hello"⟩ rfl

theorem postMessage_of_valid (s : Server) (req : ChatMessageRequest)
    (hv : validateStruct req = []) :
    (s.postMessage (.decoded req)).1 =
      ⟨StatusOK, .sent ⟨"msg_" ++ generateID, "This is a response to: " ++ req.Message,
        getCurrentTimestamp, "sent"⟩⟩ ∧
    (s.postMessage (.decoded req)).2.db = s.db := by
  constructor
  · simp only [Server.postMessage]
    exact SendMessage_of_valid (NewChatHandler s.log) req hv
  · simp [Server.postMessage]

/-- C4 fails on the code: the submissions `{u1, "hi"}` and `{u2, "hello"}` differ in
`user_id` and in body, both are accepted one after the other, and both are answered
with the identifier `msg_12345`. -/
theorem postMessage_distinct_messages_share_id :
    (⟨"u1", "hi"⟩ : ChatMessageRequest) ≠ ⟨"u2", "hello"⟩ ∧
    ((Server.mk [] []).postMessage (.decoded ⟨"u1", "hi"⟩)).1.success.map
      ChatMessageResponse.ID = some "msg_12345" ∧
    (((Server.mk [] []).postMessage (.decoded ⟨"u1", "hi"⟩)).2.postMessage
      (.decoded ⟨"u2", "hello"⟩)).1.success.map ChatMessageResponse.ID = some "msg_12345" := by
  decide

/-- C5: a valid submission sent a second time is answered with the same message
identifier as the first time, and the replay leaves the stored messages as they were
after the first submission. -/
theorem postMessage_replay (s : Server) (req : ChatMessageRequest)
    (hu : req.UserID ≠ "") (h1 : 1 ≤ runeCount req.Message)
    (h2 : runeCount req.Message ≤ 1000) :
    ∃ id : String,
      (s.postMessage (.decoded req)).1.success.map ChatMessageResponse.ID = some id ∧
      ((s.postMessage (.decoded req)).2.postMessage (.decoded req)).1.success.map
        ChatMessageResponse.ID = some id ∧
      ((s.postMessage (.decoded req)).2.postMessage (.decoded req)).2.db
        = (s.postMessage (.decoded req)).2.db := by
  have hv : validateStruct req = [] := (validateStruct_eq_nil_iff req).2 ⟨hu, h1, h2⟩
  refine ⟨"msg_" ++ generateID, ?_, ?_, ?_⟩
  · rw [(postMessage_of_valid s req hv).1]
    simp [HTTPResponse.success]
  · rw [(postMessage_of_valid _ req hv).1]
    simp [HTTPResponse.success]
  · exact (postMessage_of_valid _ req hv).2

theorem postMessage_replay_witness :
    ∃ id : String,
      ((Server.mk [] []).postMessage (.decoded ⟨"u1", "hi"⟩)).1.success.map
        ChatMessageResponse.ID = some id ∧
      (((Server.mk [] []).postMessage (.decoded ⟨"u1", "hi"⟩)).2.postMessage
        (.decoded ⟨"u1", "hi"⟩)).1.success.map ChatMessageResponse.ID = some id ∧
      (((Server.mk [] []).postMessage (.decoded ⟨"u1", "hi"⟩)).2.postMessage
        (.decoded ⟨"u1", "hi"⟩)).2.db
        = ((Server.mk [] []).postMessage (.decoded ⟨"u1", "hi"⟩)).2.db :=
  postMessage_replay (Server.mk [] []) ⟨"u1", "hi"⟩ (by decide) (by decide) (by decide)

/-- C10, as the claim states it, fails: the submission `{u1, "hi"}` is accepted and the
`message` field of its response is `"This is a response to: hi"`, not `"hi"`. -/
theorem SendMessage_message_not_echoed :
    ((NewChatHandler []).SendMessage (.decoded ⟨"u1", "hi"⟩)).1 =
      ⟨StatusOK, .sent ⟨"msg_12345", "This is a response to: hi",
        "2024-01-01T12:00:00Z", "sent"⟩⟩ ∧
    "This is a response to: hi" ≠ (ChatMessageRequest.mk "u1" "hi").Message := by
  decide

/-- C10, amended: every accepted submission is a decoded request, and its success
response carries a message identifier (`"msg_"` followed by `generateID`), a timestamp
(`getCurrentTimestamp`), the status `"sent"`, and as message the text
`"This is a response to: "` followed by the submitted body. -/
theorem SendMessage_response_fields (h : ChatHandler) (p : Payload)
    (hok : (h.SendMessage p).1.status = StatusOK) :
    ∃ (req : ChatMessageRequest) (r : ChatMessageResponse),
      p = .decoded req ∧ (h.SendMessage p).1.success = some r ∧
      r.ID = "msg_" ++ generateID ∧ r.Timestamp = getCurrentTimestamp ∧
      r.Status = "sent" ∧ r.Message = "This is a response to: " ++ req.Message := by
  cases p with
  | undecodable err =>
    simp [ChatHandler.SendMessage, ShouldBindJSON, StatusOK, StatusBadRequest] at hok
  | decoded req =>
    by_cases hv : validateStruct req = []
    · refine ⟨req, ⟨"msg_" ++ generateID, "This is a response to: " ++ req.Message,
        getCurrentTimestamp, "sent"⟩, rfl, ?_, rfl, rfl, rfl, rfl⟩
      rw [SendMessage_of_valid h req hv]
      simp [HTTPResponse.success]
    · rw [SendMessage_of_invalid h req hv] at hok
      simp [StatusOK, StatusBadRequest] at hok

theorem SendMessage_response_fields_witness :
    ∃ (req : ChatMessageRequest) (r : ChatMessageResponse),
      Payload.decoded ⟨"u1", "hi"⟩ = .decoded req ∧
      ((NewChatHandler []).SendMessage (.decoded ⟨"u1", "hi"⟩)).1.success = some r ∧
      r.ID = "msg_" ++ generateID ∧ r.Timestamp = getCurrentTimestamp ∧
      r.Status = "sent" ∧ r.Message = "This is a response to: " ++ req.Message :=
  SendMessage_response_fields (NewChatHandler []) (.decoded ⟨"u1", "hi"⟩) (by decide)

end ChatAgent

/-! ## The chat repository -/

namespace ChatAgent

theorem selects_whereUserID (userID : String) (m : ChatMessage) :
    (Query.new.WhereUserID userID).OrderCreatedAtDesc.selects m = decide (m.UserID = userID) := by
  simp [Query.selects, Query.new, Query.WhereUserID, Query.OrderCreatedAtDesc]
  rfl

theorem selects_whereID (messageID : String) (m : ChatMessage) :
    (Query.new.WhereID messageID).selects m = decide (m.ID = messageID) := by
  simp [Query.selects, Query.new, Query.WhereID]
  rfl

/-- The stored messages of a user, most recent first. -/
theorem GetMessagesByUserID_of_pos (r : ChatRepository) (userID : String) (limit : Int)
    (hl : 0 < limit) :
    r.GetMessagesByUserID userID limit =
      ((((r.db.filter (fun m => decide (m.UserID = userID))).insertionSort createdAtDesc).take
        limit.toNat, none), r) := by
  have hsel : (Query.new.WhereUserID userID).OrderCreatedAtDesc.selects
      = fun m => decide (m.UserID = userID) := funext (selects_whereUserID userID)
  have hsel2 : ((Query.new.WhereUserID userID).OrderCreatedAtDesc.Limit limit).selects
      = fun m => decide (m.UserID = userID) := funext (selects_whereUserID userID)
  simp only [ChatRepository.GetMessagesByUserID, hl, if_true, gt_iff_lt, Query.Find, hsel2]
  simp [Query.Limit, Query.OrderCreatedAtDesc]

theorem GetMessagesByUserID_of_nonpos (r : ChatRepository) (userID : String) (limit : Int)
    (hl : limit ≤ 0) :
    r.GetMessagesByUserID userID limit =
      ((((r.db.filter (fun m => decide (m.UserID = userID))).insertionSort createdAtDesc),
        none), r) := by
  have hsel : (Query.new.WhereUserID userID).OrderCreatedAtDesc.selects
      = fun m => decide (m.UserID = userID) := funext (selects_whereUserID userID)
  have hl2 : ¬ (0 < limit) := by omega
  simp only [ChatRepository.GetMessagesByUserID, hl2, if_false, gt_iff_lt, Query.Find, hsel]
  simp [Query.new, Query.WhereUserID, Query.OrderCreatedAtDesc]

theorem DeleteMessage_eq (r : ChatRepository) (messageID : String) :
    r.DeleteMessage messageID =
      (none, { db := r.db.filter (fun m => !decide (m.ID = messageID)),
               logger := r.logger.Info "Message deleted" [F "message_id" messageID] }) := by
  have hsel : (Query.new.WhereID messageID).selects = fun m => decide (m.ID = messageID) :=
    funext (selects_whereID messageID)
  simp [ChatRepository.DeleteMessage, Query.Delete, hsel]

/-- Every message returned by a history read is a stored message of the requested user. -/
theorem mem_GetMessagesByUserID (r : ChatRepository) (userID : String) (limit : Int)
    (m : ChatMessage) (hm : m ∈ (r.GetMessagesByUserID userID limit).1.1) :
    m ∈ r.db ∧ m.UserID = userID := by
  have hsorted : ∀ x, x ∈ (r.db.filter (fun m => decide (m.UserID = userID))).insertionSort
      createdAtDesc → x ∈ r.db ∧ x.UserID = userID := by
    intro x hx
    have := ((List.perm_insertionSort createdAtDesc _).mem_iff).1 hx
    simpa [List.mem_filter] using this
  by_cases hl : 0 < limit
  · rw [GetMessagesByUserID_of_pos r userID limit hl] at hm
    exact hsorted m (List.mem_of_mem_take hm)
  · rw [GetMessagesByUserID_of_nonpos r userID limit (by omega)] at hm
    exact hsorted m hm

theorem length_GetMessagesByUserID_of_pos (r : ChatRepository) (userID : String)
    (limit : Int) (hl : 0 < limit) :
    (r.GetMessagesByUserID userID limit).1.1.length =
      min limit.toNat (r.db.filter (fun m => decide (m.UserID = userID))).length := by
  rw [GetMessagesByUserID_of_pos r userID limit hl]
  simp [List.length_take, List.length_insertionSort]

theorem length_GetMessagesByUserID_of_nonpos (r : ChatRepository) (userID : String)
    (limit : Int) (hl : limit ≤ 0) :
    (r.GetMessagesByUserID userID limit).1.1.length =
      (r.db.filter (fun m => decide (m.UserID = userID))).length := by
  rw [GetMessagesByUserID_of_nonpos r userID limit hl]
  simp [List.length_insertionSort]

theorem GetMessagesByUserID_no_error (r : ChatRepository) (userID : String) (limit : Int) :
    (r.GetMessagesByUserID userID limit).1.2 = none := by
  by_cases hl : 0 < limit
  · rw [GetMessagesByUserID_of_pos r userID limit hl]
  · rw [GetMessagesByUserID_of_nonpos r userID limit (by omega)]

theorem not_mem_db_DeleteMessage (r : ChatRepository) (messageID : String) (m : ChatMessage)
    (hm : m ∈ (r.DeleteMessage messageID).2.db) : m.ID ≠ messageID := by
  rw [DeleteMessage_eq] at hm
  simpa using (List.mem_filter.1 hm).2

/-- C6: deleting twice reports no error either time, the second call leaves the stored
messages as the first call left them, and after either call no history read, for any
user and any limit, reports an error or returns a message with that identifier. -/
theorem DeleteMessage_idempotent (r : ChatRepository) (messageID : String) :
    (r.DeleteMessage messageID).1 = none ∧
    ((r.DeleteMessage messageID).2.DeleteMessage messageID).1 = none ∧
    ((r.DeleteMessage messageID).2.DeleteMessage messageID).2.db
      = (r.DeleteMessage messageID).2.db ∧
    (∀ (userID : String) (limit : Int),
      ((r.DeleteMessage messageID).2.GetMessagesByUserID userID limit).1.2 = none ∧
      ∀ m ∈ ((r.DeleteMessage messageID).2.GetMessagesByUserID userID limit).1.1,
        m.ID ≠ messageID) ∧
    (∀ (userID : String) (limit : Int),
      (((r.DeleteMessage messageID).2.DeleteMessage messageID).2.GetMessagesByUserID
        userID limit).1.2 = none ∧
      ∀ m ∈ (((r.DeleteMessage messageID).2.DeleteMessage messageID).2.GetMessagesByUserID
        userID limit).1.1, m.ID ≠ messageID) := by
  refine ⟨?_, ?_, ?_, ?_, ?_⟩
  · rw [DeleteMessage_eq]
  · rw [DeleteMessage_eq]
  · rw [DeleteMessage_eq, DeleteMessage_eq]
    simp [List.filter_filter]
  · intro userID limit
    refine ⟨GetMessagesByUserID_no_error _ _ _, ?_⟩
    intro m hm
    exact not_mem_db_DeleteMessage r messageID m (mem_GetMessagesByUserID _ _ _ m hm).1
  · intro userID limit
    refine ⟨GetMessagesByUserID_no_error _ _ _, ?_⟩
    intro m hm
    exact not_mem_db_DeleteMessage _ messageID m (mem_GetMessagesByUserID _ _ _ m hm).1

/-- C7: for a limit above zero a history read returns, without error, the first
`min(limit, n)` entries of the stored messages of the user put most recent first, `n`
being their number: only messages of that user, in non-increasing order of
`created_at`, and `min(limit, n)` of them. With an older `m1` and a newer `m2` of user
`u1` stored, in either order, and limit 1 the read returns `[m2]`. -/
theorem GetMessagesByUserID_page :
    (∀ (r : ChatRepository) (userID : String) (limit : Int), 0 < limit →
      ∃ ordering : List ChatMessage,
        ordering.Perm (r.db.filter (fun m => decide (m.UserID = userID))) ∧
        ordering.Sorted createdAtDesc ∧
        (r.GetMessagesByUserID userID limit).1 =
          (ordering.take (min limit.toNat
            (r.db.filter (fun m => decide (m.UserID = userID))).length), none) ∧
        (∀ m ∈ (r.GetMessagesByUserID userID limit).1.1, m.UserID = userID) ∧
        (r.GetMessagesByUserID userID limit).1.1.Sorted createdAtDesc ∧
        (r.GetMessagesByUserID userID limit).1.1.length =
          min limit.toNat (r.db.filter (fun m => decide (m.UserID = userID))).length) ∧
    (∀ (m1 m2 : ChatMessage) (log : Logger), m1.UserID = "u1" → m2.UserID = "u1" →
      m1.CreatedAt < m2.CreatedAt →
      ((ChatRepository.mk [m1, m2] log).GetMessagesByUserID "u1" 1).1 = ([m2], none) ∧
      ((ChatRepository.mk [m2, m1] log).GetMessagesByUserID "u1" 1).1 = ([m2], none)) := by
  constructor
  · intro r userID limit hl
    refine ⟨(r.db.filter (fun m => decide (m.UserID = userID))).insertionSort createdAtDesc,
      List.perm_insertionSort _ _, List.sorted_insertionSort _ _, ?_, ?_, ?_, ?_⟩
    · rw [GetMessagesByUserID_of_pos r userID limit hl]
      have hlen := List.length_insertionSort createdAtDesc
        (r.db.filter (fun m => decide (m.UserID = userID)))
      rw [← hlen, List.take_eq_take.2]
      omega
    · intro m hm
      exact (mem_GetMessagesByUserID r userID limit m hm).2
    · rw [GetMessagesByUserID_of_pos r userID limit hl]
      exact (List.sorted_insertionSort createdAtDesc _).sublist (List.take_sublist _ _)
    · exact length_GetMessagesByUserID_of_pos r userID limit hl
  · intro m1 m2 log h1 h2 hlt
    have hnot : ¬ m2.CreatedAt ≤ m1.CreatedAt := by omega
    have hle : m1.CreatedAt ≤ m2.CreatedAt := by omega
    constructor
    · rw [GetMessagesByUserID_of_pos _ _ _ (by decide)]
      simp [h1, h2, List.insertionSort, List.orderedInsert, createdAtDesc, hnot, hle]
    · rw [GetMessagesByUserID_of_pos _ _ _ (by decide)]
      simp [h1, h2, List.insertionSort, List.orderedInsert, createdAtDesc, hnot, hle]

theorem GetMessagesByUserID_page_witness :
    (0 : Int) < 1 ∧
    (∃ ordering : List ChatMessage,
      ordering.Perm (sampleRepository.db.filter (fun m => decide (m.UserID = "u1"))) ∧
      ordering.Sorted createdAtDesc ∧
      (sampleRepository.GetMessagesByUserID "u1" 1).1 =
        (ordering.take (min (1 : Int).toNat
          (sampleRepository.db.filter (fun m => decide (m.UserID = "u1"))).length), none) ∧
      (∀ m ∈ (sampleRepository.GetMessagesByUserID "u1" 1).1.1, m.UserID = "u1") ∧
      (sampleRepository.GetMessagesByUserID "u1" 1).1.1.Sorted createdAtDesc ∧
      (sampleRepository.GetMessagesByUserID "u1" 1).1.1.length =
        min (1 : Int).toNat
          (sampleRepository.db.filter (fun m => decide (m.UserID = "u1"))).length) ∧
    (sampleRepository.GetMessagesByUserID "u1" 1).1 = ([sampleNewer], none) :=
  ⟨by decide, GetMessagesByUserID_page.1 sampleRepository "u1" 1 (by decide),
   (GetMessagesByUserID_page.2 sampleOlder sampleNewer [] rfl rfl (by decide)).1⟩

/-- C8, as the claim states it, fails: no constant bounds the size of a history read;
a table of `M + 1` messages of one user is returned whole when the limit is 0. -/
theorem GetMessagesByUserID_no_page_bound :
    ¬ ∃ M : Nat, ∀ (r : ChatRepository) (userID : String) (limit : Int),
      (r.GetMessagesByUserID userID limit).1.1.length ≤ M := by
  rintro ⟨M, hM⟩
  have hlen := hM ⟨manyMessages (M + 1), []⟩ "u1" 0
  rw [length_GetMessagesByUserID_of_nonpos _ _ _ (le_refl 0)] at hlen
  have hall : (manyMessages (M + 1)).filter (fun m => decide (m.UserID = "u1"))
      = manyMessages (M + 1) := by
    apply List.filter_eq_self.2
    intro m hm
    simp only [manyMessages, List.mem_map] at hm
    obtain ⟨i, _, rfl⟩ := hm
    rfl
  change ((manyMessages (M + 1)).filter (fun m => decide (m.UserID = "u1"))).length ≤ M at hlen
  rw [hall] at hlen
  have hcount : (manyMessages (M + 1)).length = M + 1 := by simp [manyMessages]
  omega

/-- C8, amended: a history read has no default and no maximum page size of its own. For
a limit above zero it returns `min(limit, n)` messages, hence at most `limit`; for a
limit of zero or less it returns all `n` stored messages of the user. -/
theorem GetMessagesByUserID_length (r : ChatRepository) (userID : String) (limit : Int) :
    (0 < limit →
      (r.GetMessagesByUserID userID limit).1.1.length =
        min limit.toNat (r.db.filter (fun m => decide (m.UserID = userID))).length ∧
      ((r.GetMessagesByUserID userID limit).1.1.length : Int) ≤ limit) ∧
    (limit ≤ 0 →
      (r.GetMessagesByUserID userID limit).1.1.length =
        (r.db.filter (fun m => decide (m.UserID = userID))).length) := by
  constructor
  · intro hl
    have h := length_GetMessagesByUserID_of_pos r userID limit hl
    refine ⟨h, ?_⟩
    rw [h]
    omega
  · intro hl
    exact length_GetMessagesByUserID_of_nonpos r userID limit hl

theorem GetMessagesByUserID_length_witness :
    ((0 : Int) < 1 ∧
      (sampleRepository.GetMessagesByUserID "u1" 1).1.1.length = 1) ∧
    ((0 : Int) ≤ 0 ∧
      (sampleRepository.GetMessagesByUserID "u1" 0).1.1.length = 2) :=
  ⟨⟨by decide, ((GetMessagesByUserID_length sampleRepository "u1" 1).1 (by decide)).1⟩,
   ⟨by decide, (GetMessagesByUserID_length sampleRepository "u1" 0).2 (by decide)⟩⟩

/-- C9, as the claim states it, fails: the repository stores `m1`, and after
`DeleteMessage("m1")` no record with that identifier is left in the table. -/
theorem DeleteMessage_erases_record :
    sampleOlder ∈ sampleRepository.db ∧ sampleOlder.ID = "m1" ∧
    (sampleRepository.DeleteMessage "m1").1 = none ∧
    (sampleRepository.DeleteMessage "m1").2.db = [sampleNewer] ∧
    ¬ ∃ m ∈ (sampleRepository.DeleteMessage "m1").2.db, m.ID = "m1" := by
  decide

/-- C9, amended: deletion is a hard delete. After `DeleteMessage(id)`, which reports no
error, the table holds no record with that identifier, and history reads, for any user
and any limit, return no message with it. -/
theorem DeleteMessage_hard_delete (r : ChatRepository) (messageID : String) :
    (r.DeleteMessage messageID).1 = none ∧
    (∀ m ∈ (r.DeleteMessage messageID).2.db, m.ID ≠ messageID) ∧
    (∀ (userID : String) (limit : Int),
      ∀ m ∈ ((r.DeleteMessage messageID).2.GetMessagesByUserID userID limit).1.1,
        m.ID ≠ messageID) := by
  refine ⟨?_, ?_, ?_⟩
  · rw [DeleteMessage_eq]
  · intro m hm
    exact not_mem_db_DeleteMessage r messageID m hm
  · intro userID limit m hm
    exact not_mem_db_DeleteMessage r messageID m (mem_GetMessagesByUserID _ _ _ m hm).1

end ChatAgent

/-! ## The request identifier -/

namespace ChatAgent

/-- C11 fails on the code: the instants 2024-01-01T12:00:00Z and half a second later are
different readings of the clock, and the requests handled at them get the same request
identifier `req_20240101120000`, in `generateRequestID` and in the `X-Request-ID` header
that `RequestIDMiddleware` sets. -/
theorem RequestIDMiddleware_same_id_within_a_second :
    (1704110400000000000 : Int) ≠ 1704110400500000000 ∧
    generateRequestID 0 1704110400000000000 = "req_20240101120000" ∧
    generateRequestID 0 1704110400500000000 = "req_20240101120000" ∧
    getEntry (RequestIDMiddleware 0 1704110400000000000 id sampleGet).Header "X-Request-ID"
      = some "req_20240101120000" ∧
    getEntry (RequestIDMiddleware 0 1704110400500000000 id sampleGet).Header "X-Request-ID"
      = some "req_20240101120000" := by
  decide

end ChatAgent

/-! ## The health endpoints -/

namespace ChatAgent

/-- C12: whatever the start time of the handler, the readings of the clock and the
request, `Health` answers 200 with status `healthy` and service `chat-agent`, `Ready`
answers 200 with status `ready`, and `Live` answers 200 with status `alive`. -/
theorem health_endpoints_answer_ok (h : HealthHandler) (c : Context) (sinceNow now : Int) :
    ((h.Health c sinceNow now).code = 200 ∧
      (h.Health c sinceNow now).obj.Status = "healthy" ∧
      (h.Health c sinceNow now).obj.Service = "chat-agent") ∧
    ((h.Ready c now).code = 200 ∧ (h.Ready c now).obj.status = "ready") ∧
    ((h.Live c now).code = 200 ∧ (h.Live c now).obj.status = "alive") :=
  ⟨⟨rfl, rfl, rfl⟩, ⟨rfl, rfl⟩, ⟨rfl, rfl⟩⟩

end ChatAgent

/-! ## The frame of a deletion -/

namespace ChatAgent

/-- C13: `DeleteMessage(id)` reports no error and leaves in the table exactly the rows
whose identifier differs from `id`, in their order: each of them is still there, no row
is new, and when no row has the identifier the table is as it was. -/
theorem DeleteMessage_frame (r : ChatRepository) (messageID : String) :
    (r.DeleteMessage messageID).1 = none ∧
    (r.DeleteMessage messageID).2.db = r.db.filter (fun m => decide (m.ID ≠ messageID)) ∧
    (∀ m ∈ r.db, m.ID ≠ messageID → m ∈ (r.DeleteMessage messageID).2.db) ∧
    (∀ m ∈ (r.DeleteMessage messageID).2.db, m ∈ r.db ∧ m.ID ≠ messageID) ∧
    ((∀ m ∈ r.db, m.ID ≠ messageID) → (r.DeleteMessage messageID).2.db = r.db) := by
  have hdb : (r.DeleteMessage messageID).2.db
      = r.db.filter (fun m => decide (m.ID ≠ messageID)) := by
    rw [DeleteMessage_eq]
    simp
  refine ⟨?_, hdb, ?_, ?_, ?_⟩
  · rw [DeleteMessage_eq]
  · intro m hm hne
    rw [hdb]
    exact List.mem_filter.2 ⟨hm, by simpa using hne⟩
  · intro m hm
    rw [hdb] at hm
    have := List.mem_filter.1 hm
    exact ⟨this.1, by simpa using this.2⟩
  · intro habsent
    rw [hdb]
    exact List.filter_eq_self.2 (fun m hm => by simpa using habsent m hm)

theorem DeleteMessage_frame_witness :
    (sampleNewer ∈ sampleRepository.db ∧ sampleNewer.ID ≠ "m1" ∧
      sampleNewer ∈ (sampleRepository.DeleteMessage "m1").2.db) ∧
    ((∀ m ∈ sampleRepository.db, m.ID ≠ "m3") ∧
      (sampleRepository.DeleteMessage "m3").2.db = sampleRepository.db) :=
  ⟨⟨by decide, by decide,
    (DeleteMessage_frame sampleRepository "m1").2.2.1 sampleNewer (by decide) (by decide)⟩,
   ⟨by decide, (DeleteMessage_frame sampleRepository "m3").2.2.2.2 (by decide)⟩⟩

end ChatAgent

/-! ## The level of the two loggers -/

namespace ChatAgent

/-- C14: for every level and format, `NewZapLogger` returns a logger and no error, and
its level stands for the same severity as the level of the logger of `NewLogrusLogger`:
debug, info, warn or error for exactly `"debug"`, `"info"`, `"warn"` or `"error"`, and
info for every other string, such as `""` and `"DEBUG"`. -/
theorem logger_constructors_agree_on_level (level format : String) :
    ∃ z : ZapLogger,
      NewZapLogger level format = .ok z ∧
      z.logger.Level.severity = (NewLogrusLogger level format).logger.Level.severity ∧
      z.logger.Level.severity =
        (if level = "debug" then Level.debug
         else if level = "info" then Level.info
         else if level = "warn" then Level.warn
         else if level = "error" then Level.error
         else Level.info) ∧
      (NewLogrusLogger "" format).logger.Level.severity = Level.info ∧
      (NewLogrusLogger "DEBUG" format).logger.Level.severity = Level.info := by
  by_cases hf : format = "json" <;> by_cases h1 : level = "debug" <;>
    by_cases h2 : level = "info" <;> by_cases h3 : level = "warn" <;>
    by_cases h4 : level = "error" <;>
    simp [NewZapLogger, NewLogrusLogger, NewProductionConfig, NewDevelopmentConfig,
      ZapConfig.Build, LogrusNew, ZapLevel.severity, LogrusLevel.severity, hf, h1, h2, h3, h4]

end ChatAgent

/-! ## The preflight short-circuit -/

namespace ChatAgent

theorem find_setEntry (entries : List (String × String)) (key value other : String) :
    List.find? (fun e => e.1 == other) (setEntry entries key value) =
      if other = key then some (key, value)
      else List.find? (fun e => e.1 == other) entries := by
  unfold setEntry
  induction entries with
  | nil =>
    by_cases hk : other = key
    · subst hk
      simp [List.find?]
    · have hb : (key == other) = false := by simpa using Ne.symm hk
      simp [List.find?, hk, hb]
  | cons e es ih =>
    by_cases he : e.1 = key
    · have hdrop : (e.1 != key) = false := by simp [he]
      rw [List.filter_cons, hdrop]
      simp only [Bool.false_eq_true, if_false]
      rw [ih]
      by_cases hk : other = key
      · simp [hk]
      · have hb : (e.1 == other) = false := by
          simp only [beq_eq_false_iff_ne, ne_eq]
          intro h
          exact hk (h ▸ he)
        simp [hk, List.find?_cons, hb]
    · have hkeep : (e.1 != key) = true := by simp [he]
      rw [List.filter_cons, hkeep]
      simp only [if_true, List.cons_append, List.find?_cons]
      by_cases heo : e.1 = other
      · have hb : (e.1 == other) = true := by simp [heo]
        have hk : ¬ other = key := fun h => he (heo.trans h)
        simp [hb, hk]
      · have hb : (e.1 == other) = false := by simp [heo]
        simp only [hb]
        exact ih

theorem getEntry_setEntry_same (entries : List (String × String)) (key value : String) :
    getEntry (setEntry entries key value) key = some value := by
  simp [getEntry, find_setEntry]

theorem getEntry_setEntry_other (entries : List (String × String)) (key value other : String)
    (hne : other ≠ key) :
    getEntry (setEntry entries key value) other = getEntry entries other := by
  simp [getEntry, find_setEntry, hne]

/-- Once the index has passed the handlers that remain, the loop calls none of them. -/
theorem runHandlers_of_index_ge (rest : List HandlerFunc) (pos : Int) (c : Context)
    (hpos : pos + rest.length ≤ c.index) : Context.runHandlers rest pos c = c := by
  induction rest generalizing pos with
  | nil => rfl
  | cons h rest ih =>
    have hne : c.index ≠ pos := by
      simp only [List.length_cons, Nat.cast_add, Nat.cast_one] at hpos
      omega
    have hnext : pos + 1 + rest.length ≤ c.index := by
      simp only [List.length_cons, Nat.cast_add, Nat.cast_one] at hpos
      omega
    simp only [Context.runHandlers, hne, if_false]
    exact ih (pos + 1) hnext

theorem SetHeader_of_ne (c : Context) (key value : String) (hv : value ≠ "") :
    c.SetHeader key value = { c with Header := setEntry c.Header key value } := by
  simp [Context.SetHeader, hv]

theorem Status_AbortWithStatus (c : Context) (code : Nat) (hcode : code > 0)
    (hw : c.written = false) : (c.AbortWithStatus code).Status = code := by
  show (c.SetStatus code).Status = code
  unfold Context.SetStatus
  by_cases hs : c.Status = code
  · simp [hs]
  · simp [hs, hw, hcode]

/-- C15: `CORSMiddleware` first sets the four `Access-Control-*` response headers and
nothing else. When the method is exactly `OPTIONS` it aborts the context, with status
204 on a response not written yet, without calling `c.Next()`, and the handlers after
it in the chain are not run. For every other method its result is one call of
`c.Next()` on the context with the headers, whose status it has not touched; once the
handlers after it have run to their end inside that call, the chain runs nothing more. -/
theorem CORSMiddleware_preflight (next : Context → Context) (c : Context) :
    ∃ c4 : Context,
      (c4.Method = c.Method ∧ c4.Keys = c.Keys ∧ c4.Status = c.Status ∧
        c4.written = c.written ∧ c4.index = c.index) ∧
      (getEntry c4.Header "Access-Control-Allow-Origin" = some "*" ∧
        getEntry c4.Header "Access-Control-Allow-Credentials" = some "true" ∧
        getEntry c4.Header "Access-Control-Allow-Headers" = some
          "Content-Type, Content-Length, Accept-Encoding, X-CSRF-Token, Authorization, accept, origin, Cache-Control, X-Requested-With" ∧
        getEntry c4.Header "Access-Control-Allow-Methods" =
          some "POST, OPTIONS, GET, PUT, DELETE") ∧
      (c.Method = "OPTIONS" →
        CORSMiddleware next c = c4.AbortWithStatus StatusNoContent ∧
        (CORSMiddleware next c).IsAborted = true ∧
        (c.written = false → (CORSMiddleware next c).Status = 204) ∧
        ∀ (rest : List HandlerFunc) (pos : Int), c.index = pos →
          pos + 1 + rest.length ≤ abortIndex →
          Context.runHandlers (CORSMiddleware :: rest) pos c =
            { c4.AbortWithStatus StatusNoContent with index := abortIndex + 1 }) ∧
      (c.Method ≠ "OPTIONS" →
        CORSMiddleware next c = next c4 ∧
        ∀ (rest : List HandlerFunc) (pos : Int), c.index = pos →
          pos + rest.length ≤
            (Context.runHandlers rest (pos + 1) { c4 with index := c4.index + 1 }).index →
          Context.runHandlers (CORSMiddleware :: rest) pos c =
            { Context.runHandlers rest (pos + 1) { c4 with index := c4.index + 1 } with
              index :=
                (Context.runHandlers rest (pos + 1) { c4 with index := c4.index + 1 }).index
                  + 1 }) := by
  let entries : List (String × String) :=
    setEntry (setEntry (setEntry (setEntry c.Header
      "Access-Control-Allow-Origin" "*")
      "Access-Control-Allow-Credentials" "true")
      "Access-Control-Allow-Headers"
      "Content-Type, Content-Length, Accept-Encoding, X-CSRF-Token, Authorization, accept, origin, Cache-Control, X-Requested-With")
      "Access-Control-Allow-Methods" "POST, OPTIONS, GET, PUT, DELETE"
  let c4 : Context := { c with Header := entries }
  have hset : (((c.SetHeader "Access-Control-Allow-Origin" "*").SetHeader
      "Access-Control-Allow-Credentials" "true").SetHeader "Access-Control-Allow-Headers"
      "Content-Type, Content-Length, Accept-Encoding, X-CSRF-Token, Authorization, accept, origin, Cache-Control, X-Requested-With").SetHeader
      "Access-Control-Allow-Methods" "POST, OPTIONS, GET, PUT, DELETE" = c4 := by
    rw [SetHeader_of_ne _ _ _ (by decide), SetHeader_of_ne _ _ _ (by decide),
      SetHeader_of_ne _ _ _ (by decide), SetHeader_of_ne _ _ _ (by decide)]
  have hmw : ∀ nx : Context → Context, CORSMiddleware nx c =
      if c4.Method == "OPTIONS" then c4.AbortWithStatus StatusNoContent else nx c4 := by
    intro nx
    show (if _ then _ else _) = _
    rw [hset]
  refine ⟨c4, ⟨rfl, rfl, rfl, rfl, rfl⟩, ⟨?_, ?_, ?_, ?_⟩, ?_, ?_⟩
  · show getEntry (setEntry _ _ _) _ = _
    rw [getEntry_setEntry_other _ _ _ _ (by decide), getEntry_setEntry_other _ _ _ _ (by decide),
      getEntry_setEntry_other _ _ _ _ (by decide), getEntry_setEntry_same]
  · show getEntry (setEntry _ _ _) _ = _
    rw [getEntry_setEntry_other _ _ _ _ (by decide), getEntry_setEntry_other _ _ _ _ (by decide),
      getEntry_setEntry_same]
  · show getEntry (setEntry _ _ _) _ = _
    rw [getEntry_setEntry_other _ _ _ _ (by decide), getEntry_setEntry_same]
  · show getEntry (setEntry _ _ _) _ = _
    rw [getEntry_setEntry_same]
  · intro hm
    have hm4 : (c4.Method == "OPTIONS") = true := by
      show (c.Method == "OPTIONS") = true
      simp [hm]
    have hres : ∀ nx : Context → Context,
        CORSMiddleware nx c = c4.AbortWithStatus StatusNoContent := by
      intro nx
      rw [hmw nx, if_pos hm4]
    refine ⟨hres next, ?_, ?_, ?_⟩
    · rw [hres next]
      simp [Context.IsAborted, Context.AbortWithStatus, Context.Abort]
    · intro hw
      rw [hres next]
      exact Status_AbortWithStatus c4 StatusNoContent (by decide) hw
    · intro rest pos hpos hlen
      subst hpos
      simp only [Context.runHandlers, if_true]
      rw [hres]
      have hidx : (c4.AbortWithStatus StatusNoContent).index = abortIndex := rfl
      rw [runHandlers_of_index_ge]
      · rw [hidx]
      · show c.index + 1 + (rest.length : Int) ≤
          (c4.AbortWithStatus StatusNoContent).index + 1
        rw [hidx]
        omega
  · intro hm
    have hm4 : ¬ ((c4.Method == "OPTIONS") = true) := by
      show ¬ ((c.Method == "OPTIONS") = true)
      simp [hm]
    have hres : ∀ nx : Context → Context, CORSMiddleware nx c = nx c4 := by
      intro nx
      rw [hmw nx, if_neg hm4]
    refine ⟨hres next, ?_⟩
    intro rest pos hpos hdone
    subst hpos
    simp only [Context.runHandlers, if_true]
    rw [hres]
    rw [runHandlers_of_index_ge]
    show c.index + 1 + (rest.length : Int) ≤
      (Context.runHandlers rest (c.index + 1) { c4 with index := c4.index + 1 }).index + 1
    omega

theorem CORSMiddleware_preflight_witness :
    (sampleOptions.Method = "OPTIONS" ∧ sampleOptions.written = false ∧
      (CORSMiddleware id sampleOptions).Status = 204 ∧
      (CORSMiddleware id sampleOptions).IsAborted = true ∧
      (Context.runHandlers [CORSMiddleware, sampleFinal] 0 sampleOptions).index
        = abortIndex + 1) ∧
    (sampleGet.Method ≠ "OPTIONS" ∧
      ∃ c4 : Context, c4.Status = sampleGet.Status ∧ CORSMiddleware id sampleGet = id c4 ∧
        Context.runHandlers [CORSMiddleware, sampleFinal] 0 sampleGet =
          { Context.runHandlers [sampleFinal] (0 + 1) { c4 with index := c4.index + 1 } with
            index :=
              (Context.runHandlers [sampleFinal] (0 + 1) { c4 with index := c4.index + 1 }).index
                + 1 }) := by
  obtain ⟨c4, _, _, hopt, _⟩ := CORSMiddleware_preflight id sampleOptions
  obtain ⟨d4, gfields, _, _, hget⟩ := CORSMiddleware_preflight id sampleGet
  have hidx : d4.index = 0 := gfields.2.2.2.2
  have hdone : (0 : Int) + (([sampleFinal] : List HandlerFunc).length : Int) ≤
      (Context.runHandlers [sampleFinal] (0 + 1) { d4 with index := d4.index + 1 }).index := by
    have hstep : (Context.runHandlers [sampleFinal] (0 + 1)
        { d4 with index := d4.index + 1 }).index
        = (sampleFinal id { d4 with index := d4.index + 1 }).index + 1 := by
      simp [Context.runHandlers, hidx, sampleFinal]
    have hkeep : (sampleFinal id { d4 with index := d4.index + 1 }).index = d4.index + 1 := by
      simp only [sampleFinal, Context.SetStatus]
      split
      · split <;> rfl
      · rfl
    rw [hstep, hkeep, hidx]
    decide
  refine ⟨⟨by decide, by decide, (hopt (by decide)).2.2.1 (by decide), (hopt (by decide)).2.1, ?_⟩,
    ⟨by decide, d4, gfields.2.2.1, (hget (by decide)).1, ?_⟩⟩
  · rw [(hopt (by decide)).2.2.2 [sampleFinal] 0 (by decide) (by decide)]
  · exact (hget (by decide)).2 [sampleFinal] 0 (by decide) hdone

end ChatAgent
